import Mathlib

/-
Verification of the Dtoken request-token encoder.

The program (src/dtoken.h, src/dtoken.c, src/dtoken_ext.c) packs metadata
about a web request into a single arbitrary-precision integer (a GMP `mpz_t`
accumulator) by repeated shift-and-add steps, and finally renders that
integer in base 36.

Shallow embedding conventions:
- The `mpz_t` accumulator is a `Nat`; `mpz_mul_2exp(t, t, k)` is `t * 2 ^ k`
  and `mpz_add_ui(t, t, v)` is `t + v`.
- Field values carried by `struct token_data` are `Nat`s holding the numeric
  value the C code feeds to the GMP calls: for an IPv4 address this is the
  host-order 32-bit value `ntohl(ip->v4.s_addr)`, for an IPv6 address the
  128-bit big-endian interpretation `mpz_import` produces from `s6_addr`.
- The port parameter of `add_port` is a signed `short int` in C, while the
  callers validate port numbers up to 65535 (dtoken.c lines 466, 533, 600):
  a port number above 32767 is narrowed to a negative short on the way in,
  and `mpz_add_ui` then receives its conversion to `unsigned long`, namely
  2^64 - (65536 - port). `short_of_port`, `ulong_of_short` and `add_port_c`
  model this parameter path explicitly; the value-level `add_port` takes the
  `Nat` that `mpz_add_ui` actually receives.
- `_Bool` / truth-tested `short int` flags are `Bool`.
- `zend_long` arguments of the PHP adapter are `Int` (64-bit signed in C;
  the adapter's range checks keep the values far from 2^63, so overflow
  does not matter at the checked points).
-/

namespace Dtoken

/-! Constants from src/dtoken.h. -/

/-- Version info for this application (dtoken.h line 43). -/
def VERSION_MAJOR : Nat := 0

/-- Version info for this application (dtoken.h line 44). -/
def VERSION_MINOR : Nat := 1

/-- Version info for this application (dtoken.h line 45). -/
def VERSION_PATCH : Nat := 0

/-- Time type: second precision (dtoken.h line 49). -/
def TIME_S : Nat := 0

/-- Time type: microsecond precision (dtoken.h line 50). -/
def TIME_US : Nat := 1

/-- Bit size of the version patch segment (dtoken.h line 64). -/
def VERSION_PATCH_SIZE : Nat := 4

/-- Bit size of the version minor segment (dtoken.h line 65). -/
def VERSION_MINOR_SIZE : Nat := 8

/-- Bit size of the version major segment (dtoken.h line 66). -/
def VERSION_MAJOR_SIZE : Nat := 4

/-- Bit size of the time-type segment (dtoken.h line 67). -/
def TIME_TYPE_SIZE : Nat := 1

/-- Bit size of the seconds timestamp segment (dtoken.h line 68). -/
def TIME_S_SIZE : Nat := 32

/-- Bit size of the microseconds timestamp segment (dtoken.h line 69). -/
def TIME_US_SIZE : Nat := 52

/-- Bit size of the method segment (dtoken.h line 70). -/
def METHOD_SIZE : Nat := 4

/-- Bit size of the first generic id segment (dtoken.h line 71). -/
def ID1_SIZE : Nat := 23

/-- Bit size of the second generic id segment (dtoken.h line 72). -/
def ID2_SIZE : Nat := 15

/-- Bit size of a port segment (dtoken.h line 73). -/
def PORT_SIZE : Nat := 16

/-- Bit size of an IPv4 address segment (dtoken.h line 74). -/
def IPv4_SIZE : Nat := 32

/-- Bit size of an IPv6 address segment (dtoken.h line 75). -/
def IPv6_SIZE : Nat := 128

/-- Bit stored for AF_INET (dtoken.h line 77). -/
def INET4 : Nat := 0

/-- Bit stored for AF_INET6 (dtoken.h line 78). -/
def INET6 : Nat := 1

/-- Address family constant of arpa/inet.h as on Linux. -/
def AF_INET : Nat := 2

/-- Address family constant of arpa/inet.h as on Linux. -/
def AF_INET6 : Nat := 10

/-- Model of the C union over struct in_addr and struct in6_addr: `v4` is
the host-order 32-bit value `ntohl(s_addr)` the IPv4 branch reads, `v6` the
128-bit big-endian value the IPv6 branch obtains via `mpz_import` of
`s6_addr`. -/
structure IpUnion where
  v4 : Nat
  v6 : Nat
deriving DecidableEq, Repr

/-- `struct token_data` of dtoken.h lines 103-122. -/
structure token_data where
  time_type : Nat
  timestamp : Nat
  method : Nat
  client_enabled : Bool
  client_protocol : Nat
  client_ip : IpUnion
  client_port : Nat
  lb_enabled : Bool
  lb_protocol : Nat
  lb_ip : IpUnion
  lb_port : Nat
  server_enabled : Bool
  server_protocol : Nat
  server_ip : IpUnion
  server_port : Nat
  id1 : Nat
  id2 : Nat
deriving DecidableEq, Repr

/-- Value-level `add_port` of dtoken.c lines 48-64: append a port sub-field
to the accumulator (one 0 bit when the port is 0, otherwise a 16-bit shift,
then the added value, then a 1 bit). Here `port` is the `Nat` that
`mpz_add_ui` receives, i.e. the `unsigned long` conversion of the C
`short int` argument; the short is 0 exactly when that conversion is 0, so
the `!port` test coincides. `add_port_c` below composes this with the
parameter narrowing. -/
def add_port (token : Nat) (port : Nat) : Nat :=
  if port = 0 then
    token * 2 ^ 1 + 0
  else
    (token * 2 ^ PORT_SIZE + port) * 2 ^ 1 + 1

/-- Value of the C `short int` parameter of `add_port` for a port number
`n`: two's-complement narrowing of the caller's int to 16 signed bits. -/
def short_of_port (n : Nat) : Int :=
  if n % 2 ^ 16 < 2 ^ 15 then (n % 2 ^ 16 : Int) else (n % 2 ^ 16 : Int) - 2 ^ 16

/-- Value `mpz_add_ui` receives for a `short int` argument: conversion of
the (integer-promoted) short to the 64-bit C `unsigned long`, i.e.
reduction modulo 2^64. -/
def ulong_of_short (i : Int) : Nat :=
  (i % 2 ^ 64).toNat

/-- `add_port` of dtoken.c lines 48-64 at the level of the C parameter
types, for a caller-side port number `n`: the signed `short int` parameter
is tested against zero, and its `unsigned long` conversion is what
`mpz_add_ui` adds. -/
def add_port_c (token : Nat) (n : Nat) : Nat :=
  if short_of_port n = 0 then
    token * 2 ^ 1 + 0
  else
    (token * 2 ^ PORT_SIZE + ulong_of_short (short_of_port n)) * 2 ^ 1 + 1

/-- `add_address` of dtoken.c lines 76-122: append an address sub-field to
the accumulator (one 0 bit when disabled; otherwise the address bits, the
protocol bit and the enabled bit). -/
def add_address (token : Nat) (enabled : Bool) (protocol : Nat) (ip : IpUnion) : Nat :=
  if !enabled then
    token * 2 ^ 1 + 0
  else if protocol = AF_INET then
    ((token * 2 ^ IPv4_SIZE + ip.v4) * 2 ^ 1 + INET4) * 2 ^ 1 + 1
  else
    ((token * 2 ^ IPv6_SIZE + ip.v6) * 2 ^ 1 + INET6) * 2 ^ 1 + 1

/-- Generic-id step repeated for id2 and id1 in `add_token_data`
(dtoken.c lines 134-160): one 0 bit when the id is 0, otherwise `size`
value bits followed by a 1 bit. -/
def add_id (token : Nat) (size : Nat) (v : Nat) : Nat :=
  if v = 0 then
    token * 2 ^ 1 + 0
  else
    (token * 2 ^ size + v) * 2 ^ 1 + 1

/-- Per-endpoint pattern of `add_token_data` (dtoken.c lines 162-181):
`if (enabled) add_port(token, port); add_address(token, enabled, protocol, ip);`. -/
def endpoint_step (token : Nat) (enabled : Bool) (protocol : Nat) (ip : IpUnion)
    (port : Nat) : Nat :=
  add_address (if enabled then add_port token port else token) enabled protocol ip

/-- `add_token_data` of dtoken.c lines 132-222. -/
def add_token_data (token : Nat) (data : token_data) : Nat :=
  let t := add_id token ID2_SIZE data.id2
  let t := add_id t ID1_SIZE data.id1
  let t := endpoint_step t data.server_enabled data.server_protocol data.server_ip
    data.server_port
  let t := endpoint_step t data.lb_enabled data.lb_protocol data.lb_ip data.lb_port
  let t := endpoint_step t data.client_enabled data.client_protocol data.client_ip
    data.client_port
  let t := t * 2 ^ METHOD_SIZE + data.method
  let t :=
    if data.time_type = 0 then
      (t * 2 ^ TIME_S_SIZE + data.timestamp) * 2 ^ TIME_TYPE_SIZE + 0
    else
      (t * 2 ^ TIME_US_SIZE + data.timestamp) * 2 ^ TIME_TYPE_SIZE + 1
  let t := t * 2 ^ VERSION_MAJOR_SIZE + VERSION_MAJOR
  let t := t * 2 ^ VERSION_MINOR_SIZE + VERSION_MINOR
  t * 2 ^ VERSION_PATCH_SIZE + VERSION_PATCH

/-- Character for one base-36 digit as produced by GMP `mpz_get_str` with
base 36: `0`-`9` then lowercase `a`-`z`. -/
def base36_digit (d : Nat) : Char :=
  if d < 10 then Char.ofNat (48 + d) else Char.ofNat (87 + d)

/-- Model of dtoken.c line 309, `mpz_get_str(NULL, 36, token)`: the base-36
representation of a non-negative integer (most-significant digit first,
digits `0`-`9` and lowercase `a`-`z`, canonically `"0"` for zero). -/
def mpz_get_str_36 (n : Nat) : String :=
  if n = 0 then "0" else ⟨(Nat.digits 36 n).reverse.map base36_digit⟩

/-- Core of `build` (dtoken.c lines 248-315): the accumulator starts at 0
(`mpz_init`), `add_token_data` appends every field, and the result is
rendered in base 36. -/
def build (data : token_data) : String :=
  mpz_get_str_36 (add_token_data 0 data)

/-- Validation of `$id1` in `dtoken_build` (dtoken_ext.c lines 392-396):
the value kept for encoding, paired with whether a warning is emitted.
`(2 << ID1_SIZE) - 1` is `2 * 2 ^ ID1_SIZE - 1`. -/
def php_validate_id1 (id1 : Int) : Int × Bool :=
  if id1 < 0 ∨ id1 > 2 * 2 ^ ID1_SIZE - 1 then (0, true) else (id1, false)

/-- Validation of `$id2` in `dtoken_build` (dtoken_ext.c lines 398-402):
the value kept for encoding, paired with whether a warning is emitted.
`(2 << ID2_SIZE) - 1` is `2 * 2 ^ ID2_SIZE - 1`. -/
def php_validate_id2 (id2 : Int) : Int × Bool :=
  if id2 < 0 ∨ id2 > 2 * 2 ^ ID2_SIZE - 1 then (0, true) else (id2, false)

/-- A token_data value with every optional field absent, method 0 and a
zero seconds timestamp. -/
def empty_data : token_data where
  time_type := 0
  timestamp := 0
  method := 0
  client_enabled := false
  client_protocol := AF_INET
  client_ip := ⟨0, 0⟩
  client_port := 0
  lb_enabled := false
  lb_protocol := AF_INET
  lb_ip := ⟨0, 0⟩
  lb_port := 0
  server_enabled := false
  server_protocol := AF_INET
  server_ip := ⟨0, 0⟩
  server_port := 0
  id1 := 0
  id2 := 0

example : add_token_data 0 { empty_data with id1 := 2 ^ 23 - 1 } =
    2 ^ 80 - 2 ^ 56 + 16 := by decide

example : add_token_data 0 { empty_data with id1 := 2 ^ 23 } =
    2 ^ 80 + 2 ^ 56 + 16 := by decide

/-! Spec-side description of the record layout (section 4.3 of the design
document), used to compare the implementation's field order against the
documented one. -/

/-- Append a `width`-bit field holding `value` to the high end of the
accumulator, per the schema reading of the format. -/
def appendBits (acc width value : Nat) : Nat :=
  acc * 2 ^ width + value

/-- Spec-side optional id field: a single 0 bit when absent (value 0),
otherwise `width` value bits then a 1 flag bit. -/
def specId (acc width v : Nat) : Nat :=
  if v = 0 then appendBits acc 1 0
  else appendBits (appendBits acc width v) 1 1

/-- Spec-side optional port sub-field: one 0 bit when the port is 0,
otherwise 16 value bits then a 1 flag bit. -/
def specPort (acc port : Nat) : Nat :=
  if port = 0 then appendBits acc 1 0
  else appendBits (appendBits acc 16 port) 1 1

/-- Spec-side address sub-field: one 0 bit when disabled; otherwise the
address (32 bits for IPv4, 128 for IPv6), the protocol tag bit (0 for IPv4,
1 for IPv6), then the enabled 1 bit. -/
def specAddress (acc : Nat) (enabled : Bool) (protocol : Nat) (ip : IpUnion) : Nat :=
  if enabled = false then appendBits acc 1 0
  else if protocol = AF_INET then
    appendBits (appendBits (appendBits acc 32 ip.v4) 1 0) 1 1
  else
    appendBits (appendBits (appendBits acc 128 ip.v6) 1 1) 1 1

/-- Spec-side endpoint: the port sub-field only when the endpoint is
enabled, then the address sub-field. -/
def specEndpoint (acc : Nat) (enabled : Bool) (protocol : Nat) (ip : IpUnion)
    (port : Nat) : Nat :=
  specAddress (if enabled then specPort acc port else acc) enabled protocol ip

/-- Spec-side assembler, following the eight numbered steps of section 4.3:
starting from 0, append id2, id1, server, load balancer, client, the 4-bit
method, the timestamp with its type tag, and the version triple. -/
def specAssemble (d : token_data) : Nat :=
  let s := specId 0 15 d.id2
  let s := specId s 23 d.id1
  let s := specEndpoint s d.server_enabled d.server_protocol d.server_ip d.server_port
  let s := specEndpoint s d.lb_enabled d.lb_protocol d.lb_ip d.lb_port
  let s := specEndpoint s d.client_enabled d.client_protocol d.client_ip d.client_port
  let s := appendBits s 4 d.method
  let s :=
    if d.time_type = TIME_S then appendBits (appendBits s 32 d.timestamp) 1 0
    else appendBits (appendBits s 52 d.timestamp) 1 1
  let s := appendBits s 4 VERSION_MAJOR
  let s := appendBits s 8 VERSION_MINOR
  appendBits s 4 VERSION_PATCH

/-- C1: `add_token_data` builds the accumulator starting from 0 by appending
fields to the high end in exactly the documented order: id2, id1, server
endpoint (port only if enabled, then address), load balancer endpoint,
client endpoint, the 4-bit method, the timestamp (32 bits then tag 0 for
seconds, 52 bits then tag 1 for microseconds), and the version triple
major (4 bits), minor (8 bits), patch (4 bits); no step is skipped or
reordered. -/
theorem add_token_data_follows_spec_order (d : token_data) :
    add_token_data 0 d = specAssemble d := by
  obtain ⟨tt, ts, m, ce, cp, cip, cport, le, lp, lip, lport, se, sp, sip, sport, i1, i2⟩ := d
  simp only [add_token_data, specAssemble, add_id, endpoint_step, add_port, add_address,
    specId, specPort, specAddress, specEndpoint, appendBits,
    ID1_SIZE, ID2_SIZE, PORT_SIZE, IPv4_SIZE, IPv6_SIZE, METHOD_SIZE,
    TIME_S_SIZE, TIME_US_SIZE, TIME_TYPE_SIZE, TIME_S,
    VERSION_MAJOR, VERSION_MINOR, VERSION_PATCH,
    VERSION_MAJOR_SIZE, VERSION_MINOR_SIZE, VERSION_PATCH_SIZE,
    INET4, INET6, Bool.not_eq_true', Bool.not_eq_true]

/-- C2: the core performs no width validation and has no error channel:
`add_token_data` is total, and at the in-range maximum `id1 = 8388607` the
23-bit id1 field holds the value, while at `id1 = 8388608` the function
still returns normally and the carry corrupts adjacent bits — the id1
value window (bits 57-79) reads 0, the id1 presence flag (bit 56) reads 1,
and a spurious 1 appears at the id2 marker position (bit 80). No
`FieldOverflow` is ever raised. -/
theorem add_token_data_no_overflow_check :
    add_token_data 0 { empty_data with id1 := 8388607 } = 2 ^ 80 - 2 ^ 56 + 16
    ∧ add_token_data 0 { empty_data with id1 := 8388607 } / 2 ^ 57 % 2 ^ 23 = 8388607
    ∧ add_token_data 0 { empty_data with id1 := 8388608 } = 2 ^ 80 + 2 ^ 56 + 16
    ∧ add_token_data 0 { empty_data with id1 := 8388608 } / 2 ^ 57 % 2 ^ 23 = 0
    ∧ add_token_data 0 { empty_data with id1 := 8388608 } / 2 ^ 56 % 2 = 1
    ∧ add_token_data 0 { empty_data with id1 := 8388608 } / 2 ^ 80 % 2 = 1 := by
  decide

/-- C3: for every accumulator and enabled endpoint, `add_address` appends
the address (32 bits host-order for IPv4, 128 bits big-endian for IPv6),
then the protocol tag bit (0 for IPv4, 1 for IPv6), then the enabled 1 bit
at the least-significant position, for a total of address_width + 2 bits. -/
theorem add_address_enabled_formula (acc protocol : Nat) (ip : IpUnion) :
    (protocol = AF_INET →
      add_address acc true protocol ip = ((acc * 2 ^ 32 + ip.v4) * 2 + 0) * 2 + 1
      ∧ (ip.v4 < 2 ^ 32 →
          acc * 2 ^ (32 + 2) ≤ add_address acc true protocol ip
          ∧ add_address acc true protocol ip < (acc + 1) * 2 ^ (32 + 2)
          ∧ add_address acc true protocol ip % 2 = 1))
    ∧ (protocol = AF_INET6 →
      add_address acc true protocol ip = ((acc * 2 ^ 128 + ip.v6) * 2 + 1) * 2 + 1
      ∧ (ip.v6 < 2 ^ 128 →
          acc * 2 ^ (128 + 2) ≤ add_address acc true protocol ip
          ∧ add_address acc true protocol ip < (acc + 1) * 2 ^ (128 + 2)
          ∧ add_address acc true protocol ip % 2 = 1)) := by
  refine ⟨fun hp => ?_, fun hp => ?_⟩
  · subst hp
    simp [add_address, AF_INET, AF_INET6, INET4, INET6, IPv4_SIZE, IPv6_SIZE]
    omega
  · subst hp
    simp [add_address, AF_INET, AF_INET6, INET4, INET6, IPv4_SIZE, IPv6_SIZE]
    omega

/-- Witness for C3 at concrete inputs. -/
theorem add_address_enabled_formula_inst :
    add_address 1 true AF_INET ⟨3, 4⟩ = ((1 * 2 ^ 32 + 3) * 2 + 0) * 2 + 1
    ∧ add_address 1 true AF_INET6 ⟨3, 4⟩ = ((1 * 2 ^ 128 + 4) * 2 + 1) * 2 + 1 :=
  ⟨((add_address_enabled_formula 1 AF_INET ⟨3, 4⟩).1 rfl).1,
   ((add_address_enabled_formula 1 AF_INET6 ⟨3, 4⟩).2 rfl).1⟩

/-- C4: the claimed clean 17-bit append holds only on 0..32767. The C
parameter of `add_port` is a signed `short int` although the callers
validate port numbers up to 65535 and the format reserves 16 bits: port 0
appends one 0 bit and ports up to 32767 append the claimed
`((acc << 16) + port) << 1 + 1`, but a port number in 32768..65535 arrives
as a negative short and `mpz_add_ui` receives its `unsigned long`
conversion `2^64 - (65536 - port)`, so e.g. port 40000 adds
`2^64 - 25536` instead of 40000 and corrupts the token. -/
theorem add_port_short_int_wrap :
    add_port_c 5 0 = 5 * 2
    ∧ add_port_c 5 8080 = (5 * 2 ^ 16 + 8080) * 2 + 1
    ∧ add_port_c 5 32767 = (5 * 2 ^ 16 + 32767) * 2 + 1
    ∧ add_port_c 5 32768 = (5 * 2 ^ 16 + (2 ^ 64 - 32768)) * 2 + 1
    ∧ add_port_c 5 32768 ≠ (5 * 2 ^ 16 + 32768) * 2 + 1
    ∧ add_port_c 5 40000 = (5 * 2 ^ 16 + (2 ^ 64 - 25536)) * 2 + 1
    ∧ add_port_c 5 40000 ≠ (5 * 2 ^ 16 + 40000) * 2 + 1
    ∧ add_port_c 5 65535 = (5 * 2 ^ 16 + (2 ^ 64 - 1)) * 2 + 1 := by
  decide

/-- C5: a disabled endpoint contributes exactly one 0 bit regardless of its
protocol, address or port: the assembler does not invoke `add_port` for it,
and the whole token is unchanged under any rewrite of the disabled
endpoint's protocol, address and port fields. -/
theorem disabled_endpoint_single_bit (token p : Nat) (ip : IpUnion) (q : Nat)
    (d : token_data) :
    endpoint_step token false p ip q = token * 2
    ∧ (d.server_enabled = false → ∀ p' ip' q',
        add_token_data token
            { d with server_protocol := p', server_ip := ip', server_port := q' }
          = add_token_data token d)
    ∧ (d.lb_enabled = false → ∀ p' ip' q',
        add_token_data token
            { d with lb_protocol := p', lb_ip := ip', lb_port := q' }
          = add_token_data token d)
    ∧ (d.client_enabled = false → ∀ p' ip' q',
        add_token_data token
            { d with client_protocol := p', client_ip := ip', client_port := q' }
          = add_token_data token d) := by
  obtain ⟨tt, ts, m, ce, cp, cip, cport, le, lp, lip, lport, se, sp, sip, sport, i1, i2⟩ := d
  refine ⟨by simp [endpoint_step, add_address], fun h p' ip' q' => ?_,
    fun h p' ip' q' => ?_, fun h p' ip' q' => ?_⟩ <;>
    (simp only at h; subst h;
     simp [add_token_data, endpoint_step, add_address, add_port, add_id])

/-- Witness for C5 at concrete inputs. -/
theorem disabled_endpoint_single_bit_inst :
    endpoint_step 3 false 7 ⟨1, 2⟩ 9 = 3 * 2
    ∧ add_token_data 3
        { empty_data with server_protocol := 10, server_ip := ⟨5, 6⟩, server_port := 80 }
      = add_token_data 3 empty_data :=
  ⟨(disabled_endpoint_single_bit 3 7 ⟨1, 2⟩ 9 empty_data).1,
   (disabled_endpoint_single_bit 3 7 ⟨1, 2⟩ 9 empty_data).2.1 rfl 10 ⟨5, 6⟩ 80⟩

/-- Boundary-adapter default for an unset generic id: the callers of the
core (main in dtoken.c, get_token in dtoken_ext.c) initialize the id to 0
and leave it 0 when the field is not supplied. -/
def id_arg (o : Option Nat) : Nat :=
  o.getD 0

/-- C7: id1 = 0 (respectively id2 = 0) is encoded exactly like an
absent/unset id — one 0 bit — so a record with id1 = 0 and the identical
record with id1 unset yield the same accumulator and the same token. -/
theorem id_zero_indistinguishable_from_absent (token : Nat) (d : token_data) :
    add_id token ID1_SIZE 0 = token * 2
    ∧ add_id token ID2_SIZE 0 = token * 2
    ∧ add_token_data token { d with id1 := id_arg none }
        = add_token_data token { d with id1 := id_arg (some 0) }
    ∧ build { d with id1 := id_arg none } = build { d with id1 := id_arg (some 0) }
    ∧ add_token_data token { d with id2 := id_arg none }
        = add_token_data token { d with id2 := id_arg (some 0) }
    ∧ build { d with id2 := id_arg none } = build { d with id2 := id_arg (some 0) } :=
  ⟨by simp [add_id], by simp [add_id], rfl, rfl, rfl, rfl⟩

/-- C8: the id validation of `dtoken_build` checks against
`(2 << SIZE) - 1`, a 24-bit bound for id1 and a 16-bit bound for id2, not
the declared 23/15-bit field widths: `id1 = 8388608 = 2^23` and
`id2 = 32768 = 2^15` pass unvalidated (no warning, not zeroed) although
they exceed the bit widths the encoder reserves; the replacement-by-0 only
happens above `2^24 - 1` (respectively `2^16 - 1`). -/
theorem php_id_validation_wrong_bound :
    php_validate_id1 8388608 = (8388608, false)
    ∧ (8388608 : Int) > 2 ^ ID1_SIZE - 1
    ∧ php_validate_id2 32768 = (32768, false)
    ∧ (32768 : Int) > 2 ^ ID2_SIZE - 1
    ∧ php_validate_id1 16777215 = (16777215, false)
    ∧ php_validate_id1 16777216 = (0, true)
    ∧ php_validate_id2 65535 = (65535, false)
    ∧ php_validate_id2 65536 = (0, true) := by
  decide

/-- C9: the last three steps of `add_token_data` append the fixed version
constants 0.1.0 as major (4 bits), minor (8 bits), patch (4 bits), so for
every starting accumulator and every record the result is congruent to 16
modulo 2^16 — patch 0 in bits 0-3, minor 1 in bits 4-11, major 0 in bits
12-15 — and in particular is never 0. -/
theorem version_in_low_sixteen_bits (token : Nat) (d : token_data) :
    add_token_data token d % 2 ^ 16 = 16
    ∧ add_token_data token d ≠ 0
    ∧ add_token_data token d % 2 ^ 4 = VERSION_PATCH
    ∧ add_token_data token d / 2 ^ 4 % 2 ^ 8 = VERSION_MINOR
    ∧ add_token_data token d / 2 ^ 12 % 2 ^ 4 = VERSION_MAJOR := by
  have h : ∀ y : Nat,
      (((y * 2 ^ 4 + 0) * 2 ^ 8 + 1) * 2 ^ 4 + 0) % 2 ^ 16 = 16
      ∧ (((y * 2 ^ 4 + 0) * 2 ^ 8 + 1) * 2 ^ 4 + 0) ≠ 0
      ∧ (((y * 2 ^ 4 + 0) * 2 ^ 8 + 1) * 2 ^ 4 + 0) % 2 ^ 4 = 0
      ∧ (((y * 2 ^ 4 + 0) * 2 ^ 8 + 1) * 2 ^ 4 + 0) / 2 ^ 4 % 2 ^ 8 = 1
      ∧ (((y * 2 ^ 4 + 0) * 2 ^ 8 + 1) * 2 ^ 4 + 0) / 2 ^ 12 % 2 ^ 4 = 0 := by
    intro y
    omega
  simp only [add_token_data, VERSION_MAJOR, VERSION_MINOR, VERSION_PATCH,
    VERSION_MAJOR_SIZE, VERSION_MINOR_SIZE, VERSION_PATCH_SIZE]
  exact h _

/-- C10: an enabled endpoint takes the IPv4 branch of `add_address` only
when the protocol equals AF_INET; every other protocol value, valid or
not, is silently encoded through the IPv6 branch — 128 address bits from
the v6 view and protocol tag 1 — with no error or rejection. -/
theorem add_address_protocol_dispatch (acc protocol : Nat) (ip : IpUnion)
    (h : protocol ≠ AF_INET) :
    add_address acc true protocol ip = ((acc * 2 ^ 128 + ip.v6) * 2 + 1) * 2 + 1
    ∧ add_address acc true protocol ip = add_address acc true AF_INET6 ip := by
  simp only [AF_INET] at h
  simp [add_address, h, AF_INET, AF_INET6, INET6, IPv6_SIZE]

/-- Witness for C10 at a concrete invalid protocol selector. -/
theorem add_address_protocol_dispatch_inst :
    add_address 0 true 7 ⟨0, 5⟩ = ((0 * 2 ^ 128 + 5) * 2 + 1) * 2 + 1 :=
  (add_address_protocol_dispatch 0 7 ⟨0, 5⟩ (by decide)).1

/-! Properties of the radix encoder. -/

/-- Numeric value of one base-36 digit character. -/
def char_val (c : Char) : Nat :=
  if c.toNat ≤ 57 then c.toNat - 48 else c.toNat - 87

/-- Numeric value of a base-36 digit string, most-significant digit first. -/
def base36_value (l : List Char) : Nat :=
  l.foldl (fun a c => a * 36 + char_val c) 0

theorem char_val_base36_digit : ∀ d < 36, char_val (base36_digit d) = d := by
  decide

theorem base36_digit_mem_range : ∀ d < 36,
    ('0' ≤ base36_digit d ∧ base36_digit d ≤ '9')
    ∨ ('a' ≤ base36_digit d ∧ base36_digit d ≤ 'z') := by
  decide

theorem base36_digit_ne_zero_char : ∀ d < 36, d ≠ 0 → base36_digit d ≠ '0' := by
  decide

/-- Folding the digit characters of a most-significant-first rendering
recovers the value described by `Nat.ofDigits`. -/
theorem foldl_reverse_map_base36 (l : List Nat) (hl : ∀ d ∈ l, d < 36) (a : Nat) :
    List.foldl (fun x c => x * 36 + char_val c) a (l.reverse.map base36_digit)
      = a * 36 ^ l.length + Nat.ofDigits 36 l := by
  induction l generalizing a with
  | nil => simp
  | cons d t ih =>
    simp only [List.reverse_cons, List.map_append, List.foldl_append, List.map_cons,
      List.map_nil, List.foldl_cons, List.foldl_nil, List.length_cons]
    rw [ih (fun x hx => hl x (List.mem_cons_of_mem d hx)),
      char_val_base36_digit d (hl d (List.mem_cons_self d t)), Nat.ofDigits_cons]
    ring

/-- C6: for every non-negative accumulator value the radix encoder yields
its base-36 representation: a non-empty string over digits 0-9 and
lowercase a-z, with no sign and no leading zero (the leading character is
not '0' unless the value is 0), whose digit values decode back to the
accumulator; the accumulator 0 yields the string "0". -/
theorem radix_encoder_base36 (n : Nat) :
    mpz_get_str_36 n ≠ ""
    ∧ (∀ c ∈ (mpz_get_str_36 n).data, ('0' ≤ c ∧ c ≤ '9') ∨ ('a' ≤ c ∧ c ≤ 'z'))
    ∧ (n ≠ 0 → (mpz_get_str_36 n).data.head? ≠ some '0')
    ∧ base36_value (mpz_get_str_36 n).data = n
    ∧ mpz_get_str_36 0 = "0" := by
  rcases eq_or_ne n 0 with h0 | h0
  · subst h0
    refine ⟨by decide, ?_, by simp, by decide, rfl⟩
    intro c hc
    have : c = '0' := by simpa [mpz_get_str_36] using hc
    subst this
    decide
  · have hne : Nat.digits 36 n ≠ [] := Nat.digits_ne_nil_iff_ne_zero.mpr h0
    have hlt : ∀ d ∈ Nat.digits 36 n, d < 36 :=
      fun d hd => Nat.digits_lt_base (by norm_num) hd
    have hstr : mpz_get_str_36 n = ⟨(Nat.digits 36 n).reverse.map base36_digit⟩ := by
      simp [mpz_get_str_36, h0]
    refine ⟨?_, ?_, ?_, ?_, rfl⟩
    · intro hcon
      have : (Nat.digits 36 n).reverse.map base36_digit = [] := by
        have := congrArg String.data (hstr ▸ hcon)
        simpa using this
      simp only [List.map_eq_nil_iff, List.reverse_eq_nil_iff] at this
      exact hne this
    · intro c hc
      rw [hstr] at hc
      simp only [String.data] at hc
      obtain ⟨d, hd, rfl⟩ := List.mem_map.mp hc
      exact base36_digit_mem_range d (hlt d (List.mem_reverse.mp hd))
    · intro _
      rw [hstr]
      simp only [String.data, List.head?_map, List.head?_reverse]
      rw [List.getLast?_eq_getLast _ hne]
      have hd36 : (Nat.digits 36 n).getLast hne < 36 :=
        hlt _ (List.getLast_mem hne)
      have hdnz : (Nat.digits 36 n).getLast hne ≠ 0 :=
        Nat.getLast_digit_ne_zero 36 h0
      simpa using base36_digit_ne_zero_char _ hd36 hdnz
    · rw [hstr]
      simp only [String.data, base36_value]
      rw [foldl_reverse_map_base36 _ hlt 0]
      simp [Nat.ofDigits_digits]

/-- Witness for C6 at a concrete accumulator value. -/
theorem radix_encoder_base36_inst :
    mpz_get_str_36 46655 = "zzz"
    ∧ (mpz_get_str_36 46655).data.head? ≠ some '0'
    ∧ base36_value (mpz_get_str_36 46655).data = 46655 := by
  have h1 : Nat.digits 36 46655 = [35, 35, 35] := by
    rw [Nat.digits_def' (show (1 : Nat) < 36 by norm_num) (show (0 : Nat) < 46655 by norm_num)]
    norm_num
  have hs : mpz_get_str_36 46655 = "zzz" := by
    simp only [mpz_get_str_36, h1]
    decide
  exact ⟨hs, (radix_encoder_base36 46655).2.2.1 (by decide),
    (radix_encoder_base36 46655).2.2.2.1⟩

end Dtoken
